import Mathlib

/-!
Shallow embedding of the continuous-deployment poller in `src/check.py`
(class `GitHubAutoUpdater` plus the `main` entry point).

External effects are modelled as explicit inputs:
* an HTTP response (or a network-level exception) stands for the single
  `requests.get` call in `get_remote_commit_info`;
* a `ProcResult` stands for the `git rev-parse HEAD` subprocess in
  `get_local_commit`;
* an `Env` records, for every external command the pipeline may run, the
  outcome of each attempt (success / non-zero exit / timeout) together with
  the file-existence checks (`requirements.txt`, `manage.py`, `pytest.ini`)
  and the service liveness answers.

Observable behaviour is returned as a value: the mutable instance fields
`last_commit`, `update_count`, `last_check` become an explicit
`UpdaterState`, Python exceptions become `Except PyExn`, and the calls a
run performs (command attempts, `time.sleep`, notification emission) are
recorded in an event trace `List Ev`.  `datetime.now()` is an explicit
`now : Nat` argument.  Logging is not modelled.
-/

/-- Commit descriptor returned by `get_remote_commit_info` on a fully
parsed HTTP 200 body (the dict built at lines 82-88 of `src/check.py`). -/
structure CommitInfo where
  sha : String
  message : String
  author : String
  date : String
  url : String
deriving DecidableEq, Repr

/-- Python exceptions that the parsing code in `get_remote_commit_info`
can raise: `KeyError` from a missing dictionary key, `TypeError` from
subscripting a non-dictionary. -/
inductive PyExn where
  | keyError (key : String)
  | typeError
deriving DecidableEq, Repr

deriving instance DecidableEq for Except

/-- The `commit.commit.author` object of the branch-metadata JSON body.
`none` in a field means the key is absent from the response. -/
structure AuthorJson where
  name : Option String
  date : Option String
deriving DecidableEq, Repr

/-- The `commit.commit` object of the branch-metadata JSON body. -/
structure CommitJson where
  message : Option String
  author : Option AuthorJson
deriving DecidableEq, Repr

/-- The `commit` object of the branch-metadata JSON body. -/
structure BranchCommitJson where
  sha : Option String
  commit : Option CommitJson
  html_url : Option String
deriving DecidableEq, Repr

/-- The top-level branch-metadata JSON body. -/
structure BodyJson where
  commit : Option BranchCommitJson
deriving DecidableEq, Repr

/-- Outcome of the `requests.get` call in `get_remote_commit_info`:
either a response with a status code and body, or a raised
`requests.RequestException` (timeout, connection refused, DNS failure). -/
inductive HttpResult where
  | response (status : Nat) (body : BodyJson)
  | requestException
deriving DecidableEq, Repr

/-- Outcome of the `git rev-parse HEAD` subprocess in `get_local_commit`:
exit 0 with captured stdout, or any raised exception
(`CalledProcessError` included). -/
inductive ProcResult where
  | ok (stdout : String)
  | failed
deriving DecidableEq, Repr

/-- The mutable instance fields of `GitHubAutoUpdater` initialised in
`__init__` (lines 29-31): `last_commit`, `update_count`, `last_check`. -/
structure UpdaterState where
  last_commit : Option String
  update_count : Nat
  last_check : Option Nat
deriving DecidableEq, Repr

/-- The configuration fields of `GitHubAutoUpdater` that the embedded
control flow reads: `poll_interval`, `max_retries`, `retry_delay`. -/
structure Config where
  poll_interval : Nat
  max_retries : Nat
  retry_delay : Nat
deriving DecidableEq, Repr

/-- Python's `str.strip()`: drop leading and trailing whitespace. -/
def pyStrip (s : String) : String :=
  ⟨((s.data.dropWhile Char.isWhitespace).reverse.dropWhile Char.isWhitespace).reverse⟩

/-- `GitHubAutoUpdater.get_local_commit` (lines 52-70): on subprocess
success return the stripped stdout, on any exception return `None`. -/
def get_local_commit : ProcResult → Option String
  | .ok stdout => some (pyStrip stdout)
  | .failed => none

/-- `GitHubAutoUpdater.get_remote_commit_info` (lines 72-99).  A raised
`requests.RequestException` is caught and the function returns `None`;
status 200 builds the descriptor dict, where each subscript of a missing
key raises an uncaught `KeyError` (the `try` only catches
`requests.RequestException`); every other status logs and returns
`None`. Key accesses are performed in the evaluation order of lines
81-88. -/
def get_remote_commit_info (resp : HttpResult) : Except PyExn (Option CommitInfo) :=
  match resp with
  | .requestException => .ok none
  | .response status body =>
    if status = 200 then
      match body.commit with
      | none => .error (.keyError "commit")
      | some commit =>
        match commit.sha with
        | none => .error (.keyError "sha")
        | some sha =>
          match commit.commit with
          | none => .error (.keyError "commit")
          | some inner =>
            match inner.message with
            | none => .error (.keyError "message")
            | some message =>
              match inner.author with
              | none => .error (.keyError "author")
              | some author =>
                match author.name with
                | none => .error (.keyError "name")
                | some name =>
                  match author.date with
                  | none => .error (.keyError "date")
                  | some date =>
                    match commit.html_url with
                    | none => .error (.keyError "html_url")
                    | some url =>
                      .ok (some { sha := sha, message := message,
                                  author := name, date := date, url := url })
    else .ok none

/-- `GitHubAutoUpdater.has_update_available` (lines 101-123).  It first
assigns `self.last_check = datetime.now()`; a `KeyError` raised by
`get_remote_commit_info` is not caught here and propagates (`.error`).
A falsy remote result gives `(False, None)`; a falsy local commit
(`None`, or the empty string, by Python truthiness) gives
`(False, remote_info)`; otherwise the two hashes are compared. -/
def has_update_available (s : UpdaterState) (now : Nat) (resp : HttpResult)
    (localProc : ProcResult) :
    UpdaterState × Except PyExn (Bool × Option CommitInfo) :=
  let s1 : UpdaterState := { s with last_check := some now }
  match get_remote_commit_info resp with
  | .error e => (s1, .error e)
  | .ok none => (s1, .ok (false, none))
  | .ok (some info) =>
    match get_local_commit localProc with
    | none => (s1, .ok (false, some info))
    | some localCommit =>
      if localCommit = "" then (s1, .ok (false, some info))
      else if info.sha ≠ localCommit then (s1, .ok (true, some info))
      else (s1, .ok (false, some info))

/-- Classified outcome of one external command attempt: normal exit 0,
`subprocess.CalledProcessError` (non-zero exit), or
`subprocess.TimeoutExpired`. -/
inductive AttemptResult where
  | success
  | calledProcessError
  | timeoutExpired
deriving DecidableEq, Repr

/-- Whether an attempt outcome is a normal exit (no exception raised by
`subprocess.run(..., check=True)`). -/
def AttemptResult.isSuccess : AttemptResult → Bool
  | .success => true
  | _ => false

/-- Observable calls a run performs, recorded in order. `syncAttempt c n`
is attempt `n` of code-sync command `c` (0 = fetch, 1 = checkout,
2 = hard reset); `retrySleep d` is the `time.sleep(self.retry_delay)`
inside a retry loop; `sleepEv d` is the scheduler's
`time.sleep(self.poll_interval)`; `checkEv` marks a call to
`has_update_available`; `notifyEv ok` a call to `send_notification`. -/
inductive Ev where
  | backupEv (ok : Bool)
  | syncAttempt (cmd : Nat) (attempt : Nat)
  | retrySleep (d : Nat)
  | installAttempt (attempt : Nat)
  | scriptRun (idx : Nat)
  | svcStatusCheck (idx : Nat)
  | svcRestart (idx : Nat)
  | notifyEv (success : Bool)
  | sleepEv (d : Nat)
  | checkEv
deriving DecidableEq, Repr

/-- The retry loop shared verbatim by `fetch_latest_code` (lines 134-163)
and `install_dependencies` (lines 174-198): `for attempt in
range(max_retries)` runs a command; success exits the loop with `okRes`
(a `break`, resp. `return True`); a failure on the last attempt
(`attempt == max_retries - 1`) returns `failRes`; an earlier failure
sleeps `retry_delay` and retries.  Falling off an empty loop (only
possible when `max_retries = 0`) yields `fallRes`: for `fetch_latest_code`
the outer command loop just continues, for `install_dependencies` the
function body ends and Python returns `None`.  `remaining` is
`max_retries - attempt`. -/
def retryGo {α : Type} (d : Nat) (outcome : Nat → AttemptResult) (mkEv : Nat → Ev)
    (okRes failRes fallRes : α) : Nat → Nat → α × List Ev
  | _, 0 => (fallRes, [])
  | attempt, remaining + 1 =>
    if (outcome attempt).isSuccess then (okRes, [mkEv attempt])
    else if remaining = 0 then (failRes, [mkEv attempt])
    else
      let r := retryGo d outcome mkEv okRes failRes fallRes (attempt + 1) remaining
      (r.1, mkEv attempt :: Ev.retrySleep d :: r.2)

/-- The inner retry loop of `fetch_latest_code` for one of the three
code-sync commands, started at attempt 0. -/
def syncCmdLoop (m d : Nat) (outcome : Nat → AttemptResult) (c : Nat) : Bool × List Ev :=
  retryGo d outcome (Ev.syncAttempt c) true false true 0 m

/-- The outer command loop of `fetch_latest_code` over the list of
code-sync command indices: a command whose retries are exhausted returns
`False` from the whole function; otherwise the next command runs. -/
def fetchGo (m d : Nat) (outcome : Nat → Nat → AttemptResult) : List Nat → Bool × List Ev
  | [] => (true, [])
  | c :: rest =>
    let r := syncCmdLoop m d (outcome c) c
    if r.1 then
      let r2 := fetchGo m d outcome rest
      (r2.1, r.2 ++ r2.2)
    else (false, r.2)

/-- `GitHubAutoUpdater.fetch_latest_code` (lines 125-165): three ordered
commands (`git fetch origin`, `git checkout BRANCH`,
`git reset --hard origin/BRANCH`), each under the bounded retry loop;
reaching the end returns `True`. -/
def fetch_latest_code (m d : Nat) (outcome : Nat → Nat → AttemptResult) :
    Bool × List Ev :=
  fetchGo m d outcome [0, 1, 2]

/-- `GitHubAutoUpdater.install_dependencies` (lines 167-202): if
`requirements.txt` exists, `pip install -r requirements.txt` under the
retry loop (success `return True`, exhausted retries `return False`,
empty loop falls through to an implicit `return None`); if the manifest
is absent the stage returns `True` without running anything. -/
def install_dependencies (m d : Nat) (reqExists : Bool)
    (outcome : Nat → AttemptResult) : Option Bool × List Ev :=
  if reqExists then
    retryGo d outcome Ev.installAttempt (some true) (some false) none 0 m
  else (some true, [])

/-- Which marker file gates script `i` of `run_custom_scripts`
(lines 206-210): scripts 0 and 1 are gated by `manage.py`, script 2 by
`pytest.ini`. -/
def scriptGate (managePy pytestIni : Bool) : Nat → Bool
  | 0 => managePy
  | 1 => managePy
  | 2 => pytestIni
  | _ => false

/-- `GitHubAutoUpdater.run_custom_scripts` (lines 204-229): each of the
three scripts runs only if its marker file exists; a
`CalledProcessError` or `TimeoutExpired` is caught and logged as a
warning, so the outcome never influences control flow and the function
returns nothing. -/
def run_custom_scripts (managePy pytestIni : Bool) : List Ev :=
  ((List.range 3).filter (scriptGate managePy pytestIni)).map Ev.scriptRun

/-- `GitHubAutoUpdater.restart_application` (lines 231-254): for each of
the three service names, query `systemctl status`; if it reports active
(returncode 0), issue the restart, whose failure is caught and logged. -/
def restart_application (svcActive : Nat → Bool) : List Ev :=
  (List.range 3).flatMap fun i =>
    Ev.svcStatusCheck i :: (if svcActive i then [Ev.svcRestart i] else [])

/-- Outcomes of every external effect one pipeline run may perform. -/
structure Env where
  backupOk : Bool
  fetchOut : Nat → Nat → AttemptResult
  requirementsExists : Bool
  installOut : Nat → AttemptResult
  managePyExists : Bool
  pytestIniExists : Bool
  svcActive : Nat → Bool

/-- `GitHubAutoUpdater.perform_update` (lines 272-301): backup failure is
logged and ignored; a `False` from `fetch_latest_code` or a falsy result
from `install_dependencies` returns `False` at once, skipping every
later stage; otherwise scripts and restarts run best-effort, then
`self.last_commit` and `self.update_count` are written and the run
returns `True`. -/
def perform_update (cfg : Config) (env : Env) (s : UpdaterState) (info : CommitInfo) :
    Bool × UpdaterState × List Ev :=
  let backupEvs : List Ev := [Ev.backupEv env.backupOk]
  let f := fetch_latest_code cfg.max_retries cfg.retry_delay env.fetchOut
  if f.1 then
    let inst := install_dependencies cfg.max_retries cfg.retry_delay
      env.requirementsExists env.installOut
    if inst.1 = some true then
      let scr := run_custom_scripts env.managePyExists env.pytestIniExists
      let rst := restart_application env.svcActive
      let s2 : UpdaterState :=
        { s with last_commit := some info.sha, update_count := s.update_count + 1 }
      (true, s2, backupEvs ++ f.2 ++ inst.2 ++ scr ++ rst)
    else (false, s, backupEvs ++ f.2 ++ inst.2)
  else (false, s, backupEvs ++ f.2)

/-- One iteration of the `while True` body of `GitHubAutoUpdater.run`
(lines 327-349): check for an update; when one is detected run
`perform_update` then `send_notification`; an exception escaping the
check is caught by the per-cycle `except Exception` handler; every path
then executes `time.sleep(self.poll_interval)` once. -/
def runCycle (cfg : Config) (env : Env) (s : UpdaterState) (now : Nat)
    (resp : HttpResult) (localProc : ProcResult) : UpdaterState × List Ev :=
  let checkRes := has_update_available s now resp localProc
  match checkRes.2 with
  | .error _ => (checkRes.1, [Ev.checkEv, Ev.sleepEv cfg.poll_interval])
  | .ok (hasUpd, info) =>
    match info with
    | some ci =>
      if hasUpd then
        let r := perform_update cfg env checkRes.1 ci
        (r.2.1, Ev.checkEv :: (r.2.2 ++ [Ev.notifyEv r.1, Ev.sleepEv cfg.poll_interval]))
      else (checkRes.1, [Ev.checkEv, Ev.sleepEv cfg.poll_interval])
    | none => (checkRes.1, [Ev.checkEv, Ev.sleepEv cfg.poll_interval])

/-- The `--once` branch of `main` (lines 394-401): one
`has_update_available` call; on an update, `print` the message and call
`perform_update` — no `send_notification` call and no sleep.  Nothing
catches exceptions here, so a parse `KeyError` propagates (`.error`);
`commit_info['message']` on a `None` descriptor would be a `TypeError`
(unreachable, since a `True` flag always comes with a descriptor). -/
def main_once (cfg : Config) (env : Env) (s : UpdaterState) (now : Nat)
    (resp : HttpResult) (localProc : ProcResult) :
    Except PyExn (UpdaterState × List Ev) :=
  let checkRes := has_update_available s now resp localProc
  match checkRes.2 with
  | .error e => .error e
  | .ok (hasUpd, info) =>
    if hasUpd then
      match info with
      | some ci =>
        let r := perform_update cfg env checkRes.1 ci
        .ok (r.2.1, Ev.checkEv :: r.2.2)
      | none => .error .typeError
    else .ok (checkRes.1, [Ev.checkEv])

/-- Concrete configuration mirroring `load_config`'s defaults:
poll interval 300 s, 3 retries, 10 s retry delay. -/
def cfg1 : Config := { poll_interval := 300, max_retries := 3, retry_delay := 10 }

/-- Environment for the no-manifest scenario: every command succeeds,
`requirements.txt`, `manage.py`, `pytest.ini` absent, no service active. -/
def envB : Env :=
  { backupOk := true
    fetchOut := fun _ _ => AttemptResult.success
    requirementsExists := false
    installOut := fun _ => AttemptResult.success
    managePyExists := false
    pytestIniExists := false
    svcActive := fun _ => false }

/-- Environment whose code-sync commands always fail with a non-zero exit. -/
def envFail : Env :=
  { backupOk := true
    fetchOut := fun _ _ => AttemptResult.calledProcessError
    requirementsExists := true
    installOut := fun _ => AttemptResult.success
    managePyExists := true
    pytestIniExists := true
    svcActive := fun _ => true }

/-- Initial deployment state: local revision `abc123`, no update yet. -/
def stateB : UpdaterState := { last_commit := some "abc123", update_count := 0, last_check := none }

/-- The `commit.commit` object shared by the complete test bodies:
message `msg`, author `alice`, date `2024-01-01`. -/
def innerB : CommitJson :=
  { message := some "msg", author := some { name := some "alice", date := some "2024-01-01" } }

/-- A complete 200 body whose tip commit is `def456`. -/
def bodyB : BodyJson :=
  { commit := some { sha := some "def456", commit := some innerB, html_url := some "urlB" } }

/-- A complete 200 body whose tip commit is `abc123` (equal to local). -/
def bodyEq : BodyJson :=
  { commit := some { sha := some "abc123", commit := some innerB, html_url := some "urlB" } }

/-- A 200 body whose `commit` object lacks the required `sha` key. -/
def bodyNoSha : BodyJson :=
  { commit := some { sha := none, commit := some innerB, html_url := some "urlB" } }

/-- An arbitrary body paired with non-200 statuses. -/
def body404 : BodyJson := { commit := none }

/-- The descriptor parsed from `bodyB`. -/
def infoB : CommitInfo :=
  { sha := "def456", message := "msg", author := "alice", date := "2024-01-01", url := "urlB" }

example : get_remote_commit_info (.response 200 bodyB) = .ok (some infoB) := by decide

example :
    runCycle cfg1 envB stateB 7 (.response 200 bodyB) (.ok "abc123") =
      ({ last_commit := some "def456", update_count := 1, last_check := some 7 },
        [Ev.checkEv, Ev.backupEv true, Ev.syncAttempt 0 0, Ev.syncAttempt 1 0,
         Ev.syncAttempt 2 0, Ev.svcStatusCheck 0, Ev.svcStatusCheck 1, Ev.svcStatusCheck 2,
         Ev.notifyEv true, Ev.sleepEv 300]) := by
  decide

example :
    main_once cfg1 envB stateB 7 (.response 200 bodyB) (.ok "abc123") =
      .ok ({ last_commit := some "def456", update_count := 1, last_check := some 7 },
        [Ev.checkEv, Ev.backupEv true, Ev.syncAttempt 0 0, Ev.syncAttempt 1 0,
         Ev.syncAttempt 2 0, Ev.svcStatusCheck 0, Ev.svcStatusCheck 1, Ev.svcStatusCheck 2]) := by
  decide

example :
    fetch_latest_code 3 10 (fun _ _ => AttemptResult.calledProcessError) =
      (false, [Ev.syncAttempt 0 0, Ev.retrySleep 10, Ev.syncAttempt 0 1, Ev.retrySleep 10,
               Ev.syncAttempt 0 2]) := by
  decide

example :
    get_remote_commit_info (.response 404 { commit := none }) = .ok none := by
  decide

/-- Recognises the scheduler's inter-cycle `time.sleep(poll_interval)`. -/
def isSleepEv : Ev → Bool
  | .sleepEv _ => true
  | _ => false

/-- Recognises a `send_notification` call. -/
def isNotifyEv : Ev → Bool
  | .notifyEv _ => true
  | _ => false

/-- Recognises a `has_update_available` call. -/
def isCheckEv : Ev → Bool
  | .checkEv => true
  | _ => false

/-- Recognises a dependency-install command attempt. -/
def isInstallEv : Ev → Bool
  | .installAttempt _ => true
  | _ => false

/-- Recognises a maintenance-script execution. -/
def isScriptEv : Ev → Bool
  | .scriptRun _ => true
  | _ => false

/-- Recognises a service-restart-stage action (status query or restart). -/
def isSvcEv : Ev → Bool
  | .svcStatusCheck _ => true
  | .svcRestart _ => true
  | _ => false

/-- Recognises any event `perform_update` itself can emit (everything
except check, notification and scheduler-sleep events). -/
def isPipelineEv : Ev → Bool
  | .backupEv _ => true
  | .syncAttempt _ _ => true
  | .retrySleep _ => true
  | .installAttempt _ => true
  | .scriptRun _ => true
  | .svcStatusCheck _ => true
  | .svcRestart _ => true
  | _ => false

/-- Every event emitted by the retry loop is either a command attempt
(an `mkEv`) or the fixed delay between attempts. -/
theorem retryGo_mem {α : Type} (d : Nat) (outcome : Nat → AttemptResult)
    (mkEv : Nat → Ev) (okRes failRes fallRes : α) :
    ∀ (remaining attempt : Nat) (e : Ev),
      e ∈ (retryGo d outcome mkEv okRes failRes fallRes attempt remaining).2 →
      (∃ n, e = mkEv n) ∨ e = Ev.retrySleep d := by
  intro remaining
  induction remaining with
  | zero =>
    intro attempt e h
    simp [retryGo] at h
  | succ k ih =>
    intro attempt e h
    simp only [retryGo] at h
    by_cases hs : (outcome attempt).isSuccess = true
    · simp only [hs, if_true, List.mem_singleton] at h
      exact Or.inl ⟨attempt, h⟩
    · simp only [hs, if_false, Bool.false_eq_true] at h
      by_cases hk : k = 0
      · simp only [hk, if_true, List.mem_singleton] at h
        exact Or.inl ⟨attempt, h⟩
      · simp only [hk, if_false, List.mem_cons] at h
        rcases h with h | h | h
        · exact Or.inl ⟨attempt, h⟩
        · exact Or.inr h
        · exact ih (attempt + 1) e h

/-- Every event emitted by the code-sync stage is a sync command attempt
or a retry delay. -/
theorem fetchGo_mem (m d : Nat) (outcome : Nat → Nat → AttemptResult) :
    ∀ (cs : List Nat) (e : Ev), e ∈ (fetchGo m d outcome cs).2 →
      (∃ c n, e = Ev.syncAttempt c n) ∨ ∃ dd, e = Ev.retrySleep dd := by
  intro cs
  induction cs with
  | nil =>
    intro e h
    simp [fetchGo] at h
  | cons c rest ih =>
    intro e h
    simp only [fetchGo] at h
    by_cases hr : (syncCmdLoop m d (outcome c) c).1 = true
    · simp only [hr, if_true, List.mem_append] at h
      rcases h with h | h
      · rcases retryGo_mem d (outcome c) (Ev.syncAttempt c) true false true m 0 e h with
          ⟨n, rfl⟩ | rfl
        · exact Or.inl ⟨c, n, rfl⟩
        · exact Or.inr ⟨d, rfl⟩
      · exact ih e h
    · simp only [hr, if_false, Bool.false_eq_true] at h
      rcases retryGo_mem d (outcome c) (Ev.syncAttempt c) true false true m 0 e h with
        ⟨n, rfl⟩ | rfl
      · exact Or.inl ⟨c, n, rfl⟩
      · exact Or.inr ⟨d, rfl⟩

/-- Every event emitted by the dependency-install stage is an install
attempt or a retry delay. -/
theorem install_dependencies_mem (m d : Nat) (reqExists : Bool)
    (outcome : Nat → AttemptResult) (e : Ev)
    (h : e ∈ (install_dependencies m d reqExists outcome).2) :
    (∃ n, e = Ev.installAttempt n) ∨ ∃ dd, e = Ev.retrySleep dd := by
  by_cases hr : reqExists = true
  · simp only [install_dependencies, hr, if_true] at h
    rcases retryGo_mem d outcome Ev.installAttempt (some true) (some false) none m 0 e h with
      ⟨n, rfl⟩ | rfl
    · exact Or.inl ⟨n, rfl⟩
    · exact Or.inr ⟨d, rfl⟩
  · simp [install_dependencies, hr] at h

/-- Every event emitted by the maintenance-script stage is a script run. -/
theorem run_custom_scripts_mem (managePy pytestIni : Bool) (e : Ev)
    (h : e ∈ run_custom_scripts managePy pytestIni) : ∃ i, e = Ev.scriptRun i := by
  simp only [run_custom_scripts, List.mem_map] at h
  rcases h with ⟨i, _, rfl⟩
  exact ⟨i, rfl⟩

/-- Every event emitted by the service-restart stage is a status query or
a restart. -/
theorem restart_application_mem (svcActive : Nat → Bool) (e : Ev)
    (h : e ∈ restart_application svcActive) :
    (∃ i, e = Ev.svcStatusCheck i) ∨ ∃ i, e = Ev.svcRestart i := by
  simp only [restart_application, List.mem_flatMap, List.mem_cons] at h
  rcases h with ⟨i, _, rfl | h⟩
  · exact Or.inl ⟨i, rfl⟩
  · by_cases ha : svcActive i = true
    · simp only [ha, if_true, List.mem_singleton] at h
      exact Or.inr ⟨i, h ▸ rfl⟩
    · simp [ha] at h

/-- Every event in a `perform_update` trace is a pipeline event: the
pipeline run itself never emits a check, a notification, or the
scheduler sleep. -/
theorem perform_update_mem (cfg : Config) (env : Env) (s : UpdaterState)
    (info : CommitInfo) (e : Ev) (h : e ∈ (perform_update cfg env s info).2.2) :
    isPipelineEv e = true := by
  simp only [perform_update] at h
  by_cases hf : (fetch_latest_code cfg.max_retries cfg.retry_delay env.fetchOut).1 = true
  · simp only [hf, if_true] at h
    by_cases hi : (install_dependencies cfg.max_retries cfg.retry_delay env.requirementsExists
        env.installOut).1 = some true
    · simp only [hi, if_true, List.cons_append, List.nil_append, List.mem_cons,
        List.mem_append] at h
      rcases h with rfl | ((h | h) | h) | h
      · rfl
      · rcases fetchGo_mem cfg.max_retries cfg.retry_delay env.fetchOut [0, 1, 2] e h with
          ⟨c, n, rfl⟩ | ⟨dd, rfl⟩ <;> rfl
      · rcases install_dependencies_mem cfg.max_retries cfg.retry_delay env.requirementsExists
            env.installOut e h with ⟨n, rfl⟩ | ⟨dd, rfl⟩ <;> rfl
      · rcases run_custom_scripts_mem env.managePyExists env.pytestIniExists e h with ⟨i, rfl⟩
        rfl
      · rcases restart_application_mem env.svcActive e h with ⟨i, rfl⟩ | ⟨i, rfl⟩ <;> rfl
    · simp only [hi, if_false, List.cons_append, List.nil_append, List.mem_cons,
        List.mem_append] at h
      rcases h with rfl | h | h
      · rfl
      · rcases fetchGo_mem cfg.max_retries cfg.retry_delay env.fetchOut [0, 1, 2] e h with
          ⟨c, n, rfl⟩ | ⟨dd, rfl⟩ <;> rfl
      · rcases install_dependencies_mem cfg.max_retries cfg.retry_delay env.requirementsExists
            env.installOut e h with ⟨n, rfl⟩ | ⟨dd, rfl⟩ <;> rfl
  · simp only [hf, if_false, Bool.false_eq_true, List.cons_append, List.nil_append,
      List.mem_cons] at h
    rcases h with rfl | h
    · rfl
    · rcases fetchGo_mem cfg.max_retries cfg.retry_delay env.fetchOut [0, 1, 2] e h with
        ⟨c, n, rfl⟩ | ⟨dd, rfl⟩ <;> rfl

example :
    get_remote_commit_info
      (.response 200 { commit := some { sha := none, commit := none, html_url := none } }) =
      .error (.keyError "sha") := by
  decide

/-- Pipeline events are disjoint from the scheduler-level events. -/
theorem isPipelineEv_classify (e : Ev) (h : isPipelineEv e = true) :
    isSleepEv e = false ∧ isNotifyEv e = false ∧ isCheckEv e = false := by
  cases e <;> simp_all [isPipelineEv, isSleepEv, isNotifyEv, isCheckEv]

/-- `has_update_available` always returns the input state with only
`last_check` overwritten by the current time (line 103 runs before any
branching). -/
theorem has_update_state (s : UpdaterState) (now : Nat) (resp : HttpResult)
    (localProc : ProcResult) :
    (has_update_available s now resp localProc).1 = { s with last_check := some now } := by
  simp only [has_update_available]
  rcases get_remote_commit_info resp with e | info
  · rfl
  · rcases info with _ | ci
    · rfl
    · rcases get_local_commit localProc with _ | lc
      · rfl
      · by_cases hl : lc = "" <;> by_cases hs : ci.sha ≠ lc <;> simp [hl, hs]

/-- The deployment state returned by `perform_update`: advanced (new
`last_commit`, incremented `update_count`, untouched `last_check`)
exactly when the run succeeded, and returned unchanged otherwise. -/
theorem perform_update_state (cfg : Config) (env : Env) (s : UpdaterState)
    (info : CommitInfo) :
    (perform_update cfg env s info).2.1 =
      (if (perform_update cfg env s info).1 then
        { s with last_commit := some info.sha, update_count := s.update_count + 1 }
      else s) := by
  simp only [perform_update]
  by_cases hf : (fetch_latest_code cfg.max_retries cfg.retry_delay env.fetchOut).1 = true
  · by_cases hi : (install_dependencies cfg.max_retries cfg.retry_delay env.requirementsExists
        env.installOut).1 = some true <;> simp [hf, hi]
  · simp [hf]

/-- `perform_update` reports success exactly when the code-sync stage and
the dependency-install stage both report success. -/
theorem perform_update_success_iff (cfg : Config) (env : Env) (s : UpdaterState)
    (info : CommitInfo) :
    (perform_update cfg env s info).1 = true ↔
      (fetch_latest_code cfg.max_retries cfg.retry_delay env.fetchOut).1 = true ∧
      (install_dependencies cfg.max_retries cfg.retry_delay env.requirementsExists
        env.installOut).1 = some true := by
  simp only [perform_update]
  by_cases hf : (fetch_latest_code cfg.max_retries cfg.retry_delay env.fetchOut).1 = true
  · by_cases hi : (install_dependencies cfg.max_retries cfg.retry_delay env.requirementsExists
        env.installOut).1 = some true <;> simp [hf, hi]
  · simp [hf]

/-- Unfolding step for `List.intersperse` over an image of `List.range`. -/
theorem intersperse_range_step (sep : Ev) (g : Nat → Ev) (k : Nat) :
    List.intersperse sep ((List.range (k + 2)).map g) =
      g 0 :: sep :: List.intersperse sep ((List.range (k + 1)).map fun j => g (j + 1)) := by
  rw [List.range_succ_eq_map (k + 1), List.map_cons, List.map_map]
  rw [List.range_succ_eq_map k, List.map_cons, List.map_cons]
  rw [List.intersperse_cons_cons]
  rfl

/-- When every attempt of the command fails, the retry loop performs all
`remaining` attempts in order, with exactly one `retry_delay` sleep
between consecutive attempts and none after the last, then returns the
failure result. -/
theorem retryGo_fail {α : Type} (d : Nat) (outcome : Nat → AttemptResult)
    (mkEv : Nat → Ev) (okRes failRes fallRes : α)
    (hfail : ∀ i, (outcome i).isSuccess = false) :
    ∀ (k attempt : Nat),
      retryGo d outcome mkEv okRes failRes fallRes attempt (k + 1) =
        (failRes, List.intersperse (Ev.retrySleep d)
          ((List.range (k + 1)).map fun j => mkEv (attempt + j))) := by
  intro k
  induction k with
  | zero =>
    intro attempt
    simp [retryGo, hfail]
    rfl
  | succ k ih =>
    intro attempt
    have hstep : retryGo d outcome mkEv okRes failRes fallRes attempt (k + 1 + 1) =
        (if (outcome attempt).isSuccess then (okRes, [mkEv attempt])
         else if k + 1 = 0 then (failRes, [mkEv attempt])
         else
           ((retryGo d outcome mkEv okRes failRes fallRes (attempt + 1) (k + 1)).1,
             mkEv attempt :: Ev.retrySleep d ::
               (retryGo d outcome mkEv okRes failRes fallRes (attempt + 1) (k + 1)).2)) := rfl
    rw [hstep, hfail attempt, ih (attempt + 1)]
    rw [intersperse_range_step (Ev.retrySleep d) (fun j => mkEv (attempt + j)) k]
    have hfun : (fun j => mkEv (attempt + (j + 1))) = fun j => mkEv (attempt + 1 + j) := by
      funext j
      congr 1
      omega
    simp [hfun]

/-- An environment whose best-effort outcomes (backup result, script
marker files, service liveness) are replaced while the fail-fast inputs
(code-sync and dependency-install outcomes, manifest presence) are kept. -/
def bestEffortOverride (env : Env) (b mp pi : Bool) (sv : Nat → Bool) : Env :=
  { env with backupOk := b, managePyExists := mp, pytestIniExists := pi, svcActive := sv }

/-- Claim C1: for every pipeline run, the deployment state (`last_commit`
and `update_count`) is advanced iff the code-sync stage and the
dependency-install stage both succeeded — independently of the outcomes
of the backup, maintenance-script and service-restart stages — and the
pipeline result (`perform_update`'s boolean) is true under exactly the
same condition. -/
theorem c1_state_advance_iff_sync_and_install (cfg : Config) (env : Env)
    (s : UpdaterState) (info : CommitInfo) :
    ((perform_update cfg env s info).1 = true ↔
      (fetch_latest_code cfg.max_retries cfg.retry_delay env.fetchOut).1 = true ∧
      (install_dependencies cfg.max_retries cfg.retry_delay env.requirementsExists
        env.installOut).1 = some true) ∧
    (perform_update cfg env s info).2.1 =
      (if (perform_update cfg env s info).1 then
        { s with last_commit := some info.sha, update_count := s.update_count + 1 }
      else s) ∧
    (∀ (b mp pi : Bool) (sv : Nat → Bool),
      (perform_update cfg (bestEffortOverride env b mp pi sv) s info).1 =
        (perform_update cfg env s info).1) := by
  refine ⟨perform_update_success_iff cfg env s info,
    perform_update_state cfg env s info, ?_⟩
  intro b mp pi sv
  simp only [perform_update, bestEffortOverride]
  by_cases hf : (fetch_latest_code cfg.max_retries cfg.retry_delay env.fetchOut).1 = true
  · by_cases hi : (install_dependencies cfg.max_retries cfg.retry_delay env.requirementsExists
        env.installOut).1 = some true <;> simp [hf, hi]
  · simp [hf]

/-- Claim C2: when the code-sync stage fails (a command exhausted its
retry budget is the only way `fetch_latest_code` returns `False`), the
dependency-install, maintenance-script and service-restart stages emit
no events, the run returns failure, and the deployment state is returned
unchanged. -/
theorem c2_fail_fast_on_sync_failure (cfg : Config) (env : Env) (s : UpdaterState)
    (info : CommitInfo)
    (hf : (fetch_latest_code cfg.max_retries cfg.retry_delay env.fetchOut).1 = false) :
    (perform_update cfg env s info).1 = false ∧
    (perform_update cfg env s info).2.1 = s ∧
    (perform_update cfg env s info).2.2.filter isInstallEv = [] ∧
    (perform_update cfg env s info).2.2.filter isScriptEv = [] ∧
    (perform_update cfg env s info).2.2.filter isSvcEv = [] := by
  have htr : (perform_update cfg env s info).2.2 =
      Ev.backupEv env.backupOk ::
        (fetch_latest_code cfg.max_retries cfg.retry_delay env.fetchOut).2 := by
    simp [perform_update, hf]
  have hmem : ∀ e ∈ (perform_update cfg env s info).2.2,
      isInstallEv e = false ∧ isScriptEv e = false ∧ isSvcEv e = false := by
    intro e he
    rw [htr] at he
    rcases List.mem_cons.mp he with rfl | he
    · exact ⟨rfl, rfl, rfl⟩
    · rcases fetchGo_mem cfg.max_retries cfg.retry_delay env.fetchOut [0, 1, 2] e he with
        ⟨c, n, rfl⟩ | ⟨dd, rfl⟩ <;> exact ⟨rfl, rfl, rfl⟩
  refine ⟨?_, ?_, ?_, ?_, ?_⟩
  · simp [perform_update, hf]
  · simp [perform_update, hf]
  · exact List.filter_eq_nil_iff.mpr fun e he => by simp [(hmem e he).1]
  · exact List.filter_eq_nil_iff.mpr fun e he => by simp [(hmem e he).2.1]
  · exact List.filter_eq_nil_iff.mpr fun e he => by simp [(hmem e he).2.2]

/-- Witness for C2 at a concrete input: with all three sync commands
always failing under 3 retries, the pipeline fails, the state is
unchanged and no later-stage event appears. -/
theorem c2_fail_fast_on_sync_failure_witness :
    (fetch_latest_code cfg1.max_retries cfg1.retry_delay envFail.fetchOut).1 = false ∧
    (perform_update cfg1 envFail stateB infoB).1 = false ∧
    (perform_update cfg1 envFail stateB infoB).2.1 = stateB ∧
    (perform_update cfg1 envFail stateB infoB).2.2.filter isInstallEv = [] ∧
    (perform_update cfg1 envFail stateB infoB).2.2.filter isScriptEv = [] ∧
    (perform_update cfg1 envFail stateB infoB).2.2.filter isSvcEv = [] := by
  have h := c2_fail_fast_on_sync_failure cfg1 envFail stateB infoB (by decide)
  exact ⟨by decide, h.1, h.2.1, h.2.2.1, h.2.2.2.1, h.2.2.2.2⟩

/-- Claim C8: a command that fails (non-zero exit or timeout) on every
attempt under the retry policy is attempted exactly `max_retries` times,
with one `retry_delay` sleep between consecutive attempts and none after
the final one, and the stage is then classified as failed.  Stated for
both retry sites: a code-sync command (`syncCmdLoop`) and the dependency
install (`install_dependencies` with the manifest present).  The
interleaving is `List.intersperse`: attempts `0 .. max_retries - 1` in
order, separated by single delays.  `1 ≤ max_retries` is the spec's
Config invariant (retry count positive). -/
theorem c8_retry_exhaustion_shape (m d : Nat) (outcome : Nat → AttemptResult) (c : Nat)
    (hm : 1 ≤ m) (hfail : ∀ i, (outcome i).isSuccess = false) :
    syncCmdLoop m d outcome c =
      (false, List.intersperse (Ev.retrySleep d) ((List.range m).map (Ev.syncAttempt c))) ∧
    install_dependencies m d true outcome =
      (some false, List.intersperse (Ev.retrySleep d) ((List.range m).map Ev.installAttempt)) := by
  obtain ⟨k, rfl⟩ : ∃ k, m = k + 1 := ⟨m - 1, by omega⟩
  constructor
  · have h := retryGo_fail d outcome (Ev.syncAttempt c) true false true hfail k 0
    simpa [syncCmdLoop] using h
  · have h := retryGo_fail d outcome Ev.installAttempt (some true) (some false) none hfail k 0
    simpa [install_dependencies] using h

/-- Witness for C8 at a concrete input: 3 retries, delay 10, command
always failing with a non-zero exit. -/
theorem c8_retry_exhaustion_shape_witness :
    syncCmdLoop 3 10 (fun _ => AttemptResult.calledProcessError) 0 =
      (false, List.intersperse (Ev.retrySleep 10) ((List.range 3).map (Ev.syncAttempt 0))) ∧
    install_dependencies 3 10 true (fun _ => AttemptResult.calledProcessError) =
      (some false, List.intersperse (Ev.retrySleep 10) ((List.range 3).map Ev.installAttempt)) :=
  c8_retry_exhaustion_shape 3 10 (fun _ => AttemptResult.calledProcessError) 0
    (by decide) (fun _ => rfl)

/-- Whether every field required by the descriptor built at lines 82-88
(`sha`, `message`, `author.name`, `author.date`, `html_url`) is present
in a 200 response body. -/
def bodyComplete (b : BodyJson) : Bool :=
  match b.commit with
  | none => false
  | some commit =>
    (commit.sha.isSome &&
      (match commit.commit with
       | none => false
       | some inner =>
         inner.message.isSome &&
           (match inner.author with
            | none => false
            | some author => author.name.isSome && author.date.isSome))) &&
      commit.html_url.isSome

/-- Parsing a 200 body succeeds with a descriptor when every required
field is present, and raises a `KeyError` when any is missing. -/
theorem get_remote_200_classify (b : BodyJson) :
    (bodyComplete b = true ∧
      ∃ info, get_remote_commit_info (.response 200 b) = .ok (some info)) ∨
    (bodyComplete b = false ∧
      ∃ e, get_remote_commit_info (.response 200 b) = .error e) := by
  rcases b with ⟨_ | ⟨sha, cc, url⟩⟩
  · exact Or.inr ⟨rfl, ⟨.keyError "commit", rfl⟩⟩
  · rcases sha with _ | sha
    · exact Or.inr ⟨rfl, ⟨.keyError "sha", rfl⟩⟩
    · rcases cc with _ | ⟨msg, auth⟩
      · exact Or.inr ⟨rfl, ⟨.keyError "commit", rfl⟩⟩
      · rcases msg with _ | msg
        · exact Or.inr ⟨rfl, ⟨.keyError "message", rfl⟩⟩
        · rcases auth with _ | ⟨nm, dt⟩
          · exact Or.inr ⟨rfl, ⟨.keyError "author", rfl⟩⟩
          · rcases nm with _ | nm
            · exact Or.inr ⟨rfl, ⟨.keyError "name", rfl⟩⟩
            · rcases dt with _ | dt
              · exact Or.inr ⟨rfl, ⟨.keyError "date", rfl⟩⟩
              · rcases url with _ | url
                · exact Or.inr ⟨rfl, ⟨.keyError "html_url", rfl⟩⟩
                · exact Or.inl ⟨rfl, ⟨⟨sha, msg, nm, dt, url⟩, rfl⟩⟩

/-- Any status other than 200 falls through the `elif` chain of lines
89-94 and the function returns `None`. -/
theorem get_remote_non200 (status : Nat) (h : status ≠ 200) (b : BodyJson) :
    get_remote_commit_info (.response status b) = .ok none := by
  simp [get_remote_commit_info, h]

/-- When the remote query raises out of the parse, `has_update_available`
propagates the exception after having set `last_check`. -/
theorem has_update_err (s : UpdaterState) (now : Nat) (resp : HttpResult)
    (lp : ProcResult) (e : PyExn) (h : get_remote_commit_info resp = .error e) :
    has_update_available s now resp lp = ({ s with last_check := some now }, .error e) := by
  simp [has_update_available, h]

/-- When the remote query returns `None`, `has_update_available` answers
no-update with no descriptor. -/
theorem has_update_remote_none (s : UpdaterState) (now : Nat) (resp : HttpResult)
    (lp : ProcResult) (h : get_remote_commit_info resp = .ok none) :
    has_update_available s now resp lp =
      ({ s with last_check := some now }, .ok (false, none)) := by
  simp [has_update_available, h]

/-- Claim C4: when both resolutions succeed (the remote parse yields a
descriptor and the local query yields a commit identifier — a non-empty
hash string, per the glossary; the empty string is Python-falsy and is
treated by line 112 as an unreadable local state), `has_update_available`
returns `(True, descriptor)` for distinct identifiers and
`(False, descriptor)` for equal ones; a remote failure yields
`(False, None)` and a local failure `(False, descriptor)`. -/
theorem c4_has_update_compare (s : UpdaterState) (now : Nat) (resp : HttpResult)
    (lp : ProcResult) :
    (∀ info lc, get_remote_commit_info resp = .ok (some info) →
      get_local_commit lp = some lc → lc ≠ "" → info.sha ≠ lc →
      (has_update_available s now resp lp).2 = .ok (true, some info)) ∧
    (∀ info lc, get_remote_commit_info resp = .ok (some info) →
      get_local_commit lp = some lc → lc ≠ "" → info.sha = lc →
      (has_update_available s now resp lp).2 = .ok (false, some info)) ∧
    (get_remote_commit_info resp = .ok none →
      (has_update_available s now resp lp).2 = .ok (false, none)) ∧
    (∀ info, get_remote_commit_info resp = .ok (some info) →
      get_local_commit lp = none →
      (has_update_available s now resp lp).2 = .ok (false, some info)) := by
  refine ⟨?_, ?_, ?_, ?_⟩
  · intro info lc h1 h2 h3 h4
    simp [has_update_available, h1, h2, h3, h4]
  · intro info lc h1 h2 h3 h4
    simp [has_update_available, h1, h2, h3, h4]
  · intro h1
    simp [has_update_available, h1]
  · intro info h1 h2
    simp [has_update_available, h1, h2]

/-- The descriptor parsed from `bodyEq`. -/
def infoEq : CommitInfo :=
  { sha := "abc123", message := "msg", author := "alice", date := "2024-01-01", url := "urlB" }

/-- Witness for C4: local `abc123` against remote `def456` reports an
update; against remote `abc123` it reports none, returning the
descriptor in both cases. -/
theorem c4_has_update_compare_witness :
    (has_update_available stateB 7 (.response 200 bodyB) (.ok "abc123")).2 =
      .ok (true, some infoB) ∧
    (has_update_available stateB 7 (.response 200 bodyEq) (.ok "abc123")).2 =
      .ok (false, some infoEq) := by
  constructor
  · exact (c4_has_update_compare stateB 7 (.response 200 bodyB) (.ok "abc123")).1
      infoB "abc123" (by decide) (by decide) (by decide) (by decide)
  · exact (c4_has_update_compare stateB 7 (.response 200 bodyEq) (.ok "abc123")).2.1
      infoEq "abc123" (by decide) (by decide) (by decide) (by decide)

/-- Claim C10: every status other than 200, 404 and 403 (for example 500
or 301) makes `get_remote_commit_info` return `None`, and
`has_update_available` consequently returns `(False, None)` — the same
degrade-to-no-update behaviour as the enumerated statuses. -/
theorem c10_other_status_degrades (status : Nat) (h200 : status ≠ 200)
    (h404 : status ≠ 404) (h403 : status ≠ 403) (b : BodyJson) (s : UpdaterState)
    (now : Nat) (lp : ProcResult) :
    get_remote_commit_info (.response status b) = .ok none ∧
    (has_update_available s now (.response status b) lp).2 = .ok (false, none) := by
  have h := get_remote_non200 status h200 b
  exact ⟨h, by simp [has_update_available, h]⟩

/-- Witness for C10 at status 500. -/
theorem c10_other_status_degrades_witness :
    get_remote_commit_info (.response 500 body404) = .ok none ∧
    (has_update_available stateB 7 (.response 500 body404) (.ok "abc123")).2 =
      .ok (false, none) :=
  c10_other_status_degrades 500 (by decide) (by decide) (by decide) body404 stateB 7
    (.ok "abc123")

/-- Counterexample to C3: a 200 response whose `commit` object lacks the
required `sha` key does not make `get_remote_commit_info` return `None`
— it raises `KeyError` (only `requests.RequestException` is caught), and
`has_update_available` propagates that exception to its caller instead
of degrading to no-update. -/
theorem c3_missing_field_raises_counterexample :
    get_remote_commit_info (.response 200 bodyNoSha) ≠ .ok none ∧
    get_remote_commit_info (.response 200 bodyNoSha) = .error (.keyError "sha") ∧
    (has_update_available stateB 7 (.response 200 bodyNoSha) (.ok "abc123")).2 =
      .error (.keyError "sha") := by
  refine ⟨by decide, by decide, by decide⟩

/-- Claim C3 (amended): branch-not-found (404), rate-limit (403), and any
network-level failure make `get_remote_commit_info` return `None` and
`has_update_available` degrade to `(False, None)` without raising; but a
required field absent from a 200 body raises a `KeyError` that
propagates out of both functions, and is absorbed only by the continuous
loop's per-cycle exception handler, which then degrades the cycle to
no-update. -/
theorem c3_degrade_except_parse (s : UpdaterState) (now : Nat) (lp : ProcResult) :
    ((has_update_available s now .requestException lp).2 = .ok (false, none)) ∧
    (∀ b, (has_update_available s now (.response 404 b) lp).2 = .ok (false, none)) ∧
    (∀ b, (has_update_available s now (.response 403 b) lp).2 = .ok (false, none)) ∧
    (∀ b, bodyComplete b = false →
      ∃ e, get_remote_commit_info (.response 200 b) = .error e ∧
        (has_update_available s now (.response 200 b) lp).2 = .error e) ∧
    (∀ (cfg : Config) (env : Env) b, bodyComplete b = false →
      runCycle cfg env s now (.response 200 b) lp =
        ({ s with last_check := some now }, [Ev.checkEv, Ev.sleepEv cfg.poll_interval])) := by
  refine ⟨?_, ?_, ?_, ?_, ?_⟩
  · simp [has_update_remote_none s now .requestException lp rfl]
  · intro b
    simp [has_update_remote_none s now (.response 404 b) lp (get_remote_non200 404 (by decide) b)]
  · intro b
    simp [has_update_remote_none s now (.response 403 b) lp (get_remote_non200 403 (by decide) b)]
  · intro b hb
    rcases get_remote_200_classify b with ⟨hc, _⟩ | ⟨_, e, he⟩
    · rw [hb] at hc
      exact absurd hc (by decide)
    · exact ⟨e, he, by simp [has_update_err s now (.response 200 b) lp e he]⟩
  · intro cfg env b hb
    rcases get_remote_200_classify b with ⟨hc, _⟩ | ⟨_, e, he⟩
    · rw [hb] at hc
      exact absurd hc (by decide)
    · simp [runCycle, has_update_err s now (.response 200 b) lp e he]

/-- Witness for the amended C3 at concrete inputs: a network exception
degrades to `(False, None)`; the `sha`-less 200 body raises, and the
continuous loop survives that cycle (only `last_check` moves, then the
full-interval sleep). -/
theorem c3_degrade_except_parse_witness :
    ((has_update_available stateB 9 .requestException .failed).2 = .ok (false, none)) ∧
    (∃ e, get_remote_commit_info (.response 200 bodyNoSha) = .error e ∧
      (has_update_available stateB 9 (.response 200 bodyNoSha) .failed).2 = .error e) ∧
    runCycle cfg1 envB stateB 9 (.response 200 bodyNoSha) .failed =
      ({ stateB with last_check := some 9 }, [Ev.checkEv, Ev.sleepEv cfg1.poll_interval]) := by
  have h := c3_degrade_except_parse stateB 9 .failed
  exact ⟨h.1, h.2.2.2.1 bodyNoSha (by decide), h.2.2.2.2 cfg1 envB bodyNoSha (by decide)⟩

/-- Traces emitted by a pipeline run contain no scheduler sleep, no
notification and no check event. -/
theorem perform_update_filter_nil (cfg : Config) (env : Env) (s0 : UpdaterState)
    (info : CommitInfo) :
    ((perform_update cfg env s0 info).2.2).filter isSleepEv = [] ∧
    ((perform_update cfg env s0 info).2.2).filter isNotifyEv = [] ∧
    ((perform_update cfg env s0 info).2.2).filter isCheckEv = [] := by
  refine ⟨?_, ?_, ?_⟩
  · refine List.filter_eq_nil_iff.mpr fun e he => ?_
    have h := isPipelineEv_classify e (perform_update_mem cfg env s0 info e he)
    simp [h.1]
  · refine List.filter_eq_nil_iff.mpr fun e he => ?_
    have h := isPipelineEv_classify e (perform_update_mem cfg env s0 info e he)
    simp [h.2.1]
  · refine List.filter_eq_nil_iff.mpr fun e he => ?_
    have h := isPipelineEv_classify e (perform_update_mem cfg env s0 info e he)
    simp [h.2.2]

/-- Counterexample to C5: in a concrete poll cycle the wait before the
next cycle is one single `time.sleep` of the full configured interval
(300 s), not a sequence of increments shorter than the interval. -/
theorem c5_single_full_sleep_counterexample :
    (runCycle cfg1 envB stateB 7 (.response 404 body404) (.ok "abc123")).2.filter isSleepEv =
      [Ev.sleepEv 300] ∧
    cfg1.poll_interval = 300 ∧
    ¬ 300 < cfg1.poll_interval := by
  refine ⟨by decide, rfl, by decide⟩

/-- Claim C5 (amended): every poll cycle — update detected, no update, or
a cycle whose check raised — performs exactly one inter-cycle sleep, of
the full configured interval; cancellation during the wait is honoured
by the `KeyboardInterrupt` aborting that single sleep, not by chunking. -/
theorem c5_single_sleep_every_cycle (cfg : Config) (env : Env) (s : UpdaterState)
    (now : Nat) (resp : HttpResult) (lp : ProcResult) :
    (runCycle cfg env s now resp lp).2.filter isSleepEv = [Ev.sleepEv cfg.poll_interval] := by
  rcases hr : (has_update_available s now resp lp).2 with e | ⟨hasUpd, info⟩
  · simp [runCycle, hr, isSleepEv, isCheckEv]
  · rcases info with _ | ci
    · cases hasUpd <;> simp [runCycle, hr, isSleepEv, isCheckEv]
    · cases hasUpd with
      | false => simp [runCycle, hr, isSleepEv, isCheckEv]
      | true =>
        have hnil := (perform_update_filter_nil cfg env
          (has_update_available s now resp lp).1 ci).1
        simp [runCycle, hr, isSleepEv, isCheckEv, isNotifyEv, List.filter_append, hnil]

/-- Counterexample to C6: a poll cycle that detects no update (here a 404
from the remote) still mutates the `last_check` field of the deployment
state — line 103 writes it on every check — so not every field is
mutated only on the qualifying-success pipeline path. -/
theorem c6_last_check_written_counterexample :
    (runCycle cfg1 envB stateB 7 (.response 404 body404) (.ok "abc123")).1 =
      { last_commit := some "abc123", update_count := 0, last_check := some 7 } ∧
    (runCycle cfg1 envB stateB 7 (.response 404 body404) (.ok "abc123")).1.last_check ≠
      stateB.last_check ∧
    (runCycle cfg1 envB stateB 7 (.response 404 body404) (.ok "abc123")).2.filter isNotifyEv =
      [] := by
  refine ⟨by decide, by decide, by decide⟩

/-- Claim C6 (amended): `last_commit` and `update_count` are mutated only
by the pipeline-run path, and only after a run satisfying the
qualifying-success condition; `last_check`, however, is overwritten by
every update check, regardless of outcome, and is the only field the
check path touches (the pipeline path leaves it alone). -/
theorem c6_state_single_writer (cfg : Config) (env : Env) :
    (∀ (s : UpdaterState) (now : Nat) (resp : HttpResult) (lp : ProcResult),
      (has_update_available s now resp lp).1 = { s with last_check := some now }) ∧
    (∀ (s : UpdaterState) (info : CommitInfo),
      (perform_update cfg env s info).2.1 =
        (if (perform_update cfg env s info).1 then
          { s with last_commit := some info.sha, update_count := s.update_count + 1 }
        else s)) :=
  ⟨fun s now resp lp => has_update_state s now resp lp,
   fun s info => perform_update_state cfg env s info⟩

/-- The trace of the single-shot run on the Scenario-B inputs: one check,
then the pipeline's own events — and nothing else. -/
def onceTraceB : List Ev :=
  [Ev.checkEv, Ev.backupEv true, Ev.syncAttempt 0 0, Ev.syncAttempt 1 0, Ev.syncAttempt 2 0,
   Ev.svcStatusCheck 0, Ev.svcStatusCheck 1, Ev.svcStatusCheck 2]

/-- Counterexample to C7: in single-shot mode on a detected update the
pipeline runs (the state advances to `def456`) and no sleep occurs, but
no notification is emitted either — the `--once` branch of `main` never
calls `send_notification`, so "run the pipeline and then emit the
notification" fails on the code. -/
theorem c7_once_mode_counterexample :
    main_once cfg1 envB stateB 7 (.response 200 bodyB) (.ok "abc123") =
      .ok ({ last_commit := some "def456", update_count := 1, last_check := some 7 },
        onceTraceB) ∧
    onceTraceB.filter isNotifyEv = [] ∧
    onceTraceB.filter isSleepEv = [] ∧
    onceTraceB.filter isCheckEv = [Ev.checkEv] := by
  refine ⟨by decide, by decide, by decide, by decide⟩

/-- Claim C7 (amended): single-shot mode performs exactly one cycle — one
update check, and on a detected update one pipeline run — and returns
without sleeping; unlike the continuous loop it emits no notification
report. -/
theorem c7_once_mode_single_cycle (cfg : Config) (env : Env) (s : UpdaterState)
    (now : Nat) (resp : HttpResult) (lp : ProcResult) :
    (∀ s2 tr, main_once cfg env s now resp lp = .ok (s2, tr) →
      tr.filter isCheckEv = [Ev.checkEv] ∧ tr.filter isSleepEv = [] ∧
      tr.filter isNotifyEv = []) ∧
    (∀ ci, (has_update_available s now resp lp).2 = .ok (true, some ci) →
      main_once cfg env s now resp lp =
        .ok ((perform_update cfg env { s with last_check := some now } ci).2.1,
          Ev.checkEv :: (perform_update cfg env { s with last_check := some now } ci).2.2)) := by
  constructor
  · intro s2 tr heq
    rcases hr : (has_update_available s now resp lp).2 with e | ⟨hasUpd, info⟩
    · simp [main_once, hr] at heq
    · rcases info with _ | ci
      · cases hasUpd with
        | false =>
          simp [main_once, hr] at heq
          rcases heq with ⟨h1, h2⟩
          subst h2
          refine ⟨by simp [isCheckEv], by simp [isSleepEv], by simp [isNotifyEv]⟩
        | true => simp [main_once, hr] at heq
      · cases hasUpd with
        | false =>
          simp [main_once, hr] at heq
          rcases heq with ⟨h1, h2⟩
          subst h2
          refine ⟨by simp [isCheckEv], by simp [isSleepEv], by simp [isNotifyEv]⟩
        | true =>
          simp [main_once, hr] at heq
          rcases heq with ⟨h1, h2⟩
          subst h2
          have hnil := perform_update_filter_nil cfg env
            (has_update_available s now resp lp).1 ci
          refine ⟨?_, ?_, ?_⟩
          · simp [List.filter_cons, isCheckEv, hnil.2.2]
          · simp [List.filter_cons, isSleepEv, hnil.1]
          · simp [List.filter_cons, isNotifyEv, hnil.2.1]
  · intro ci hr
    simp [main_once, hr, has_update_state]

/-- Witness for the amended C7 on Scenario-B inputs: the detected update
runs the pipeline and the trace has one check, no sleep, no
notification. -/
theorem c7_once_mode_single_cycle_witness :
    (onceTraceB.filter isCheckEv = [Ev.checkEv] ∧ onceTraceB.filter isSleepEv = [] ∧
      onceTraceB.filter isNotifyEv = []) ∧
    main_once cfg1 envB stateB 7 (.response 200 bodyB) (.ok "abc123") =
      .ok ((perform_update cfg1 envB { stateB with last_check := some 7 } infoB).2.1,
        Ev.checkEv ::
          (perform_update cfg1 envB { stateB with last_check := some 7 } infoB).2.2) := by
  have h := c7_once_mode_single_cycle cfg1 envB stateB 7 (.response 200 bodyB) (.ok "abc123")
  refine ⟨?_, h.2 infoB (by decide)⟩
  exact h.1 { last_commit := some "def456", update_count := 1, last_check := some 7 }
    onceTraceB (by decide)

/-- Claim C9: when no dependency manifest is present the
dependency-install stage succeeds without running any command; and in
Scenario B (local `abc123`, remote `def456`, no manifest) the cycle's
pipeline run succeeds — the notification reports success — and the
deployment state's last-applied commit becomes `def456` with the success
counter incremented. -/
theorem c9_no_manifest_trivial_success :
    (∀ (m d : Nat) (outcome : Nat → AttemptResult),
      install_dependencies m d false outcome = (some true, [])) ∧
    (runCycle cfg1 envB stateB 7 (.response 200 bodyB) (.ok "abc123")).1.last_commit =
      some "def456" ∧
    (runCycle cfg1 envB stateB 7 (.response 200 bodyB) (.ok "abc123")).1.update_count = 1 ∧
    (runCycle cfg1 envB stateB 7 (.response 200 bodyB) (.ok "abc123")).2.filter isNotifyEv =
      [Ev.notifyEv true] ∧
    (runCycle cfg1 envB stateB 7 (.response 200 bodyB) (.ok "abc123")).2.filter isInstallEv =
      [] := by
  refine ⟨fun m d outcome => rfl, by decide, by decide, by decide, by decide⟩
